import Mathlib

/-!
Verification of the connection-establishment layer of the lancedb python
client (`src/python/python/lancedb/__init__.py`), shallowly embedded in
Lean 4.  Locations (`URI = Union[str, Path]`) are represented by their
string form; `timedelta` values by their normalized CPython triple
(days, seconds, microseconds); the process environment by a function
`String → Option String` passed explicitly; and the external backend
constructors (`RemoteDBConnection`, `LanceDBConnection`, the native
async connector `lancedb_connect`) by records of the exact arguments
the layer hands them.  Fallible code returns `Except PyError`.
-/

deriving instance DecidableEq for Except

namespace LanceDB

/-- python `str.startswith`, on character lists (second argument is the
candidate prefix). -/
def listStartsWith : List Char → List Char → Bool
  | _, [] => true
  | [], _ :: _ => false
  | c :: s, d :: p => c = d && listStartsWith s p

/-- python `str.startswith` on strings. -/
def strStartsWith (s p : String) : Bool := listStartsWith s.data p.data

/-- python slicing `s[n:]`. -/
def strDrop (s : String) (n : Nat) : String := ⟨s.data.drop n⟩

/-- The two location variants. -/
inductive LocationClass where
  | Remote
  | Local
  deriving DecidableEq, Repr

/-- The classification test of `connect` (line 95): remote exactly when
the location starts with `db://`. -/
def classify (uri : String) : LocationClass :=
  if strStartsWith uri "db://" then .Remote else .Local

/-- A raised python `ValueError`, carrying its message. -/
inductive PyError where
  | valueError (msg : String)
  deriving DecidableEq, Repr

/-- The process environment, read via `os.environ.get`. -/
abbrev Env := String → Option String

/-- Extra keyword arguments (`**kwargs`): an ordered mapping of keyword
names to values (values rendered as strings). -/
abbrev Kwargs := List (String × String)

/-- Rendering of a kwargs mapping used in the raised error message
(stands in for the python dict repr inside the f-string). -/
def kwargsRepr (kwargs : Kwargs) : String :=
  String.intercalate ", " (kwargs.map fun p => p.1 ++ "=" ++ p.2)

/-- CPython `datetime.timedelta` in its normalized internal form:
`0 ≤ seconds < 86400` and `0 ≤ microseconds < 10^6`, with the sign
carried by `days`.  (The normalization bounds are not needed by the
theorems, so they are not imposed.) -/
structure Timedelta where
  days : Int
  seconds : Nat
  microseconds : Nat
  deriving DecidableEq, Repr

/-- CPython `timedelta.total_seconds()`:
`((days*86400 + seconds)*10**6 + microseconds) / 10**6`, modelled over ℚ. -/
def Timedelta.total_seconds (td : Timedelta) : ℚ :=
  (((td.days * 86400 + (td.seconds : Int)) * 10 ^ 6 + (td.microseconds : Int) : Int) : ℚ) / 10 ^ 6

/-- A `concurrent.futures.ThreadPoolExecutor` resource, identified by its
bounded worker count. -/
structure ThreadPoolExecutor where
  max_workers : Nat
  deriving DecidableEq, Repr

/-- CPython `ThreadPoolExecutor.__init__(max_workers)`: raises
`ValueError("max_workers must be greater than 0")` when `max_workers <= 0`
(stdlib `concurrent/futures/thread.py`). -/
def ThreadPoolExecutor.create (max_workers : Int) : Except PyError ThreadPoolExecutor :=
  if max_workers ≤ 0 then .error (.valueError "max_workers must be greater than 0")
  else .ok ⟨max_workers.toNat⟩

/-- The `request_thread_pool` parameter: `Optional[Union[int, ThreadPoolExecutor]]`. -/
abbrev RequestThreadPool := Sum Int ThreadPoolExecutor

/-- The connection handle returned by `connect`, recording which external
backend constructor was invoked and with which arguments. -/
inductive DBConnection where
  | RemoteDBConnection (uri : String) (api_key : String) (region : String)
      (host_override : Option String) (request_thread_pool : Option ThreadPoolExecutor)
      (kwargs : Kwargs)
  | LanceDBConnection (uri : String) (read_consistency_interval : Option Timedelta)
  deriving DecidableEq, Repr

/-- The location string carried by a connection handle. -/
def DBConnection.uri : DBConnection → String
  | .RemoteDBConnection u _ _ _ _ _ => u
  | .LanceDBConnection u _ => u

/-- The backend variant a handle belongs to. -/
def DBConnection.locationClass : DBConnection → LocationClass
  | .RemoteDBConnection _ _ _ _ _ _ => .Remote
  | .LanceDBConnection _ _ => .Local

/-- The python default of the `region` keyword parameter. -/
def defaultRegion : String := "us-east-1"

/-- The designated credential environment variable. -/
def apiKeyEnvVar : String := "LANCEDB_API_KEY"

/-- The function `lancedb.connect` (`src/python/python/lancedb/__init__.py`, lines 30–113).
Python keyword defaults (`api_key=None`, `region="us-east-1"`,
`host_override=None`, `read_consistency_interval=None`,
`request_thread_pool=None`, empty `**kwargs`) are passed explicitly by
callers of this embedding.  The `isinstance(uri, str)` guard is always
true here because path-like locations are represented by their string
form (pathlib collapses internal double slashes, so no `Path` renders
with a `db://` prefix). -/
def connect (uri : String) (api_key : Option String) (region : String)
    (host_override : Option String) (read_consistency_interval : Option Timedelta)
    (request_thread_pool : Option RequestThreadPool) (kwargs : Kwargs)
    (env : Env) : Except PyError DBConnection :=
  if strStartsWith uri "db://" then
    let api_key := match api_key with
      | none => env apiKeyEnvVar
      | some k => some k
    match api_key with
    | none => .error (.valueError ("api_key is required to connected LanceDB cloud: " ++ uri))
    | some key =>
      match request_thread_pool with
      | some (.inl n) =>
        match ThreadPoolExecutor.create n with
        | .error e => .error e
        | .ok pool =>
          .ok (.RemoteDBConnection uri key region host_override (some pool) kwargs)
      | some (.inr pool) =>
        .ok (.RemoteDBConnection uri key region host_override (some pool) kwargs)
      | none =>
        .ok (.RemoteDBConnection uri key region host_override none kwargs)
  else
    if kwargs ≠ [] then
      .error (.valueError ("Unknown keyword arguments: " ++ kwargsRepr kwargs))
    else
      .ok (.LanceDBConnection uri read_consistency_interval)

/-- Modelled from the spec: the URI Normalizer `sanitize_uri`
(in `lancedb/common.py`, which is not under `src/`).  Per spec §4.1: a
location with a recognized scheme prefix is returned unchanged; otherwise
a leading home-directory shortcut is expanded and the path is made
absolute against the working directory (`home` and `cwd` are passed
explicitly; deeper canonicalization is irrelevant to the claims). -/
def sanitize_uri (home cwd : String) (uri : String) : String :=
  if ["s3://", "gs://", "az://", "db://", "http://", "https://"].any
      (fun p => strStartsWith uri p) then
    uri
  else
    let expanded :=
      if uri = "~" then home
      else if strStartsWith uri "~/" then home ++ strDrop uri 1
      else uri
    if strStartsWith expanded "/" then expanded else cwd ++ "/" ++ expanded

/-- The record of arguments `connect_async` hands to the native
asynchronous connector `lancedb_connect` (an external collaborator). -/
structure NativeConnectorCall where
  uri : String
  api_key : Option String
  region : String
  host_override : Option String
  read_consistency_interval_secs : Option ℚ
  storage_options : Option (List (String × String))
  deriving DecidableEq, Repr

/-- The async connection handle wrapping the result of the native connector. -/
structure AsyncConnection where
  inner : NativeConnectorCall
  deriving DecidableEq, Repr

/-- The duration adaptation inlined in `connect_async` (lines 170–173):
a null interval stays absent, otherwise `total_seconds()` is taken. -/
def readConsistencyIntervalSecs (read_consistency_interval : Option Timedelta) : Option ℚ :=
  match read_consistency_interval with
  | some td => some td.total_seconds
  | none => none

/-- The function `lancedb.connect_async` (lines 116–184).  The body performs no
branching and no validation: it adapts the duration, sanitizes the uri,
and invokes the native connector with the arguments verbatim.  The
`request_thread_pool` parameter is accepted but unused, and the
environment is never consulted. -/
def connect_async (uri : String) (api_key : Option String) (region : String)
    (host_override : Option String) (read_consistency_interval : Option Timedelta)
    (request_thread_pool : Option RequestThreadPool)
    (storage_options : Option (List (String × String)))
    (env : Env) (home cwd : String) : AsyncConnection :=
  let _ := request_thread_pool
  let _ := env
  ⟨⟨sanitize_uri home cwd uri, api_key, region, host_override,
    readConsistencyIntervalSecs read_consistency_interval, storage_options⟩⟩

end LanceDB

namespace LanceDB

/-- Auxiliary: `listStartsWith s p` consults only the first `p.length` characters of `s`. -/
theorem listStartsWith_eq_of_take_eq (p : List Char) :
    ∀ s t : List Char, s.take p.length = t.take p.length →
      listStartsWith s p = listStartsWith t p := by
  induction p with
  | nil => intro s t _; cases s <;> cases t <;> rfl
  | cons d p ih =>
    intro s t h
    cases s with
    | nil =>
      cases t with
      | nil => rfl
      | cons c' t => simp [List.take] at h
    | cons c s =>
      cases t with
      | nil => simp [List.take] at h
      | cons c' t =>
        simp only [List.length, List.take, List.cons.injEq] at h
        simp only [listStartsWith, h.1, ih s t h.2]

/-- Helper: any successful `connect` returns a handle carrying the raw input
location, of the variant given by `classify`. -/
theorem connect_ok_cases (uri : String) (api_key : Option String) (region : String)
    (ho : Option String) (rci : Option Timedelta) (pool : Option RequestThreadPool)
    (kwargs : Kwargs) (env : Env) (c : DBConnection)
    (hc : connect uri api_key region ho rci pool kwargs env = .ok c) :
    c.uri = uri ∧ c.locationClass = classify uri := by
  by_cases h : strStartsWith uri "db://" = true
  · have hcl : classify uri = .Remote := by simp [classify, h]
    rw [hcl]
    rcases api_key with _ | k
    · rcases he : env apiKeyEnvVar with _ | v
      · simp [connect, h, he] at hc
      · rcases pool with _ | p
        · simp [connect, h, he] at hc
          subst hc; exact ⟨rfl, rfl⟩
        · rcases p with n | p
          · rcases hn : ThreadPoolExecutor.create n with e | p
            · simp [connect, h, he, hn] at hc
            · simp [connect, h, he, hn] at hc
              subst hc; exact ⟨rfl, rfl⟩
          · simp [connect, h, he] at hc
            subst hc; exact ⟨rfl, rfl⟩
    · rcases pool with _ | p
      · simp [connect, h] at hc
        subst hc; exact ⟨rfl, rfl⟩
      · rcases p with n | p
        · rcases hn : ThreadPoolExecutor.create n with e | p
          · simp [connect, h, hn] at hc
          · simp [connect, h, hn] at hc
            subst hc; exact ⟨rfl, rfl⟩
        · simp [connect, h] at hc
          subst hc; exact ⟨rfl, rfl⟩
  · have hcl : classify uri = .Local := by simp [classify, h]
    rw [hcl]
    rcases kwargs with _ | kv
    · simp [connect, h] at hc
      subst hc; exact ⟨rfl, rfl⟩
    · simp [connect, h] at hc

/-- C1 counterexample: on the Remote path an unrecognized keyword argument is
NOT rejected before the backend constructor — `connect` succeeds and forwards
the argument into `RemoteDBConnection` — while on the Local path extra
keyword arguments ARE rejected with a `ValueError` instead of being
forwarded. -/
theorem connect_remote_kwargs_accepted_cex :
    connect "db://mydb" (some "k") "us-east-1" none none none [("bogus", "1")]
        (fun _ => none)
      = .ok (.RemoteDBConnection "db://mydb" "k" "us-east-1" none none [("bogus", "1")]) ∧
    connect "/data/db" (some "k") "us-east-1" none none none [("bogus", "1")]
        (fun _ => none)
      = .error (.valueError ("Unknown keyword arguments: " ++ kwargsRepr [("bogus", "1")])) := by
  decide

/-- C1 amended: the closed configuration surface is the LOCAL path, not the
remote one: a Remote-classified `connect` forwards every caller-supplied
extra keyword argument to the remote backend constructor unvalidated, while
a Local-classified `connect` raises `ValueError` on any extra keyword
argument before the local backend constructor is invoked. -/
theorem connect_kwargs_routing (uri key region : String) (ho : Option String)
    (rci : Option Timedelta) (kwargs : Kwargs) (env : Env) :
    (strStartsWith uri "db://" = true →
      connect uri (some key) region ho rci none kwargs env
        = .ok (.RemoteDBConnection uri key region ho none kwargs)) ∧
    (strStartsWith uri "db://" = false → kwargs ≠ [] →
      connect uri (some key) region ho rci none kwargs env
        = .error (.valueError ("Unknown keyword arguments: " ++ kwargsRepr kwargs))) := by
  constructor
  · intro h; simp [connect, h]
  · intro h hk; simp [connect, h, hk]

/-- Witness for C1 amended at `"db://mydb"` and `"/data/db2"` with the extra
keyword argument `bogus`. -/
theorem connect_kwargs_routing_witness :
    connect "db://mydb" (some "k2") "us-east-1" none none none [("bogus", "1")]
        (fun _ => none)
      = .ok (.RemoteDBConnection "db://mydb" "k2" "us-east-1" none none [("bogus", "1")]) ∧
    connect "/data/db2" (some "k2") "us-east-1" none none none [("bogus", "1")]
        (fun _ => none)
      = .error (.valueError ("Unknown keyword arguments: " ++ kwargsRepr [("bogus", "1")])) :=
  ⟨(connect_kwargs_routing "db://mydb" "k2" "us-east-1" none none [("bogus", "1")]
      (fun _ => none)).1 (by decide),
   (connect_kwargs_routing "/data/db2" "k2" "us-east-1" none none [("bogus", "1")]
      (fun _ => none)).2 (by decide) (by decide)⟩

/-- C2 counterexample: credential resolution tests only for `None`, not for
emptiness: an explicit empty credential wins over a non-empty environment
value (the claim requires the environment value), and an empty environment
value is used rather than raising `MissingCredential`. -/
theorem connect_empty_api_key_cex :
    connect "db://mydb" (some "") "us-east-1" none none none []
        (fun v => if v = "LANCEDB_API_KEY" then some "envkey" else none)
      = .ok (.RemoteDBConnection "db://mydb" "" "us-east-1" none none []) ∧
    connect "db://mydb" none "us-east-1" none none none []
        (fun v => if v = "LANCEDB_API_KEY" then some "" else none)
      = .ok (.RemoteDBConnection "db://mydb" "" "us-east-1" none none []) ∧
    ("" : String) ≠ "envkey" := by
  decide

/-- C2 amended: on the Remote path the credential is the explicit argument
whenever it is present (even empty); otherwise the `LANCEDB_API_KEY`
environment value whenever present (even empty); otherwise `connect` raises
`ValueError` and the remote backend constructor is never invoked. -/
theorem connect_api_key_precedence (uri : String)
    (h : strStartsWith uri "db://" = true) (k region : String) (ho : Option String)
    (rci : Option Timedelta) (kwargs : Kwargs) (env : Env) (v : String) :
    (connect uri (some k) region ho rci none kwargs env
      = .ok (.RemoteDBConnection uri k region ho none kwargs)) ∧
    (env apiKeyEnvVar = some v →
      connect uri none region ho rci none kwargs env
        = .ok (.RemoteDBConnection uri v region ho none kwargs)) ∧
    (env apiKeyEnvVar = none →
      connect uri none region ho rci none kwargs env
        = .error (.valueError ("api_key is required to connected LanceDB cloud: " ++ uri))) := by
  refine ⟨by simp [connect, h], fun he => by simp [connect, h, he],
    fun he => by simp [connect, h, he]⟩

/-- Witness for C2 amended at `"db://wit"` with explicit key `"ek"`,
environment value `"envkey"`, and the empty environment. -/
theorem connect_api_key_precedence_witness :
    connect "db://wit" (some "ek") "us-east-1" none none none []
        (fun _ => some "envkey")
      = .ok (.RemoteDBConnection "db://wit" "ek" "us-east-1" none none []) ∧
    connect "db://wit" none "us-east-1" none none none [] (fun _ => some "envkey")
      = .ok (.RemoteDBConnection "db://wit" "envkey" "us-east-1" none none []) ∧
    connect "db://wit" none "us-east-1" none none none [] (fun _ => none)
      = .error (.valueError ("api_key is required to connected LanceDB cloud: " ++ "db://wit")) :=
  ⟨(connect_api_key_precedence "db://wit" (by decide) "ek" "us-east-1" none none []
      (fun _ => some "envkey") "envkey").1,
   (connect_api_key_precedence "db://wit" (by decide) "ek" "us-east-1" none none []
      (fun _ => some "envkey") "envkey").2.1 rfl,
   (connect_api_key_precedence "db://wit" (by decide) "ek" "us-east-1" none none []
      (fun _ => none) "envkey").2.2 rfl⟩

end LanceDB

namespace LanceDB

/-- C3 counterexample: the synchronous `connect` applies no normalization:
`connect "~/.lancedb"` hands the raw string `"~/.lancedb"` to the local
backend constructor, although the URI Normalizer (with home `/root`, cwd
`/work`) would produce the different string `"/root/.lancedb"`. -/
theorem connect_no_normalize_cex :
    connect "~/.lancedb" none "us-east-1" none none none [] (fun _ => none)
      = .ok (.LanceDBConnection "~/.lancedb" none) ∧
    sanitize_uri "/root" "/work" "~/.lancedb" = "/root/.lancedb" ∧
    ("~/.lancedb" : String) ≠ "/root/.lancedb" := by
  decide

/-- C3 amended: the synchronous `connect` performs no normalization step:
classification operates on the raw location and every successful call hands
that raw location unchanged to the chosen backend constructor; only
`connect_async` applies the URI Normalizer, before invoking the native
connector. -/
theorem connect_uri_forwarding (uri : String) (api_key : Option String)
    (region : String) (ho : Option String) (rci : Option Timedelta)
    (pool : Option RequestThreadPool) (kwargs : Kwargs) (env : Env)
    (so : Option (List (String × String))) (home cwd : String) :
    (∀ c, connect uri api_key region ho rci pool kwargs env = .ok c → c.uri = uri) ∧
    (connect_async uri api_key region ho rci pool so env home cwd).inner.uri
      = sanitize_uri home cwd uri := by
  refine ⟨fun c hc => ?_, rfl⟩
  exact (connect_ok_cases uri api_key region ho rci pool kwargs env c hc).1

/-- Witness for C3 amended at `"~/.lancedb"` with home `/root` and cwd `/work`. -/
theorem connect_uri_forwarding_witness :
    (.LanceDBConnection "~/.lancedb" none : DBConnection).uri = "~/.lancedb" ∧
    (connect_async "~/.lancedb" none "us-east-1" none none none none (fun _ => none)
        "/root" "/work").inner.uri
      = sanitize_uri "/root" "/work" "~/.lancedb" :=
  ⟨(connect_uri_forwarding "~/.lancedb" none "us-east-1" none none none [] (fun _ => none)
      none "/root" "/work").1 (.LanceDBConnection "~/.lancedb" none) (by decide),
   (connect_uri_forwarding "~/.lancedb" none "us-east-1" none none none [] (fun _ => none)
      none "/root" "/work").2⟩

/-- C4 counterexample: a negative read-consistency interval does not raise
any error: `connect_async` forwards `-1.0` seconds to the native connector
(the normalized `timedelta` for -1 second is `(-1 days, 86399 s, 0 µs)`). -/
theorem connect_async_negative_interval_cex :
    connect_async "s3://bucket/db" none "us-east-1" none (some ⟨-1, 86399, 0⟩) none none
        (fun _ => none) "/root" "/work"
      = ⟨⟨"s3://bucket/db", none, "us-east-1", none, some (-1), none⟩⟩ ∧
    ((-1 : ℚ) < 0) := by
  constructor
  · norm_num [connect_async, sanitize_uri, readConsistencyIntervalSecs,
      Timedelta.total_seconds, strStartsWith, listStartsWith]
  · norm_num

/-- C4 amended: the duration adapter maps a null interval to an absent
engine value, a zero interval to `0.0`, and any other interval — negative
ones included, with no validation — to its exact total fractional seconds;
a positive interval of N whole seconds maps to exactly N. -/
theorem duration_adapter_total (td : Timedelta) (n : Nat) (uri : String)
    (api_key : Option String) (region : String) (ho : Option String)
    (pool : Option RequestThreadPool) (so : Option (List (String × String)))
    (env : Env) (home cwd : String) :
    readConsistencyIntervalSecs none = none ∧
    readConsistencyIntervalSecs (some td) = some td.total_seconds ∧
    readConsistencyIntervalSecs (some ⟨0, 0, 0⟩) = some 0 ∧
    readConsistencyIntervalSecs (some ⟨0, n, 0⟩) = some (n : ℚ) ∧
    (connect_async uri api_key region ho (some td) pool so env home
        cwd).inner.read_consistency_interval_secs = some td.total_seconds := by
  refine ⟨rfl, rfl, ?_, ?_, rfl⟩
  · norm_num [readConsistencyIntervalSecs, Timedelta.total_seconds]
  · norm_num [readConsistencyIntervalSecs, Timedelta.total_seconds]

/-- C5: on the Remote path an integer worker-pool spec `k > 0` yields a
freshly constructed pool with exactly `k` workers, `k ≤ 0` raises the
`ValueError` of the pool constructor at connect time, and a caller-supplied
pool resource is passed to the remote backend unchanged. -/
theorem connect_thread_pool_provisioning (uri : String)
    (h : strStartsWith uri "db://" = true) (key region : String)
    (ho : Option String) (rci : Option Timedelta) (kwargs : Kwargs) (env : Env)
    (n : Int) (pool : ThreadPoolExecutor) :
    (0 < n →
      connect uri (some key) region ho rci (some (.inl n)) kwargs env
        = .ok (.RemoteDBConnection uri key region ho (some ⟨n.toNat⟩) kwargs)
      ∧ ((n.toNat : Int) = n)) ∧
    (n ≤ 0 →
      connect uri (some key) region ho rci (some (.inl n)) kwargs env
        = .error (.valueError "max_workers must be greater than 0")) ∧
    (connect uri (some key) region ho rci (some (.inr pool)) kwargs env
      = .ok (.RemoteDBConnection uri key region ho (some pool) kwargs)) := by
  refine ⟨fun hn => ⟨?_, Int.toNat_of_nonneg (le_of_lt hn)⟩, fun hn => ?_, ?_⟩
  · simp [connect, h, ThreadPoolExecutor.create, not_le.mpr hn]
  · simp [connect, h, ThreadPoolExecutor.create, hn]
  · simp [connect, h]

/-- Witness for C5 at `"db://pool"` with specs `4`, `0`, and an existing
pool of 2 workers. -/
theorem connect_thread_pool_provisioning_witness :
    (connect "db://pool" (some "k") "us-east-1" none none (some (.inl 4)) []
        (fun _ => none)
      = .ok (.RemoteDBConnection "db://pool" "k" "us-east-1" none
          (some ⟨(4 : Int).toNat⟩) [])
      ∧ (((4 : Int).toNat : Int) = 4)) ∧
    (connect "db://pool" (some "k") "us-east-1" none none (some (.inl 0)) []
        (fun _ => none)
      = .error (.valueError "max_workers must be greater than 0")) ∧
    (connect "db://pool" (some "k") "us-east-1" none none (some (.inr ⟨2⟩)) []
        (fun _ => none)
      = .ok (.RemoteDBConnection "db://pool" "k" "us-east-1" none (some ⟨2⟩) [])) :=
  ⟨(connect_thread_pool_provisioning "db://pool" (by decide) "k" "us-east-1" none none []
      (fun _ => none) 4 ⟨2⟩).1 (by decide),
   (connect_thread_pool_provisioning "db://pool" (by decide) "k" "us-east-1" none none []
      (fun _ => none) 0 ⟨2⟩).2.1 (by decide),
   (connect_thread_pool_provisioning "db://pool" (by decide) "k" "us-east-1" none none []
      (fun _ => none) 4 ⟨2⟩).2.2⟩

/-- C6: classification is a total function of the 5-character
prefix alone — `Remote` exactly on a `db://` prefix, `Local` otherwise — and
the variant of every handle `connect` returns agrees with it; none of the
other arguments influence it. -/
theorem connect_classification_prefix_only (s t : String) (api_key : Option String)
    (region : String) (ho : Option String) (rci : Option Timedelta)
    (pool : Option RequestThreadPool) (kwargs : Kwargs) (env : Env) :
    (classify s = .Remote ↔ strStartsWith s "db://" = true) ∧
    (classify s = .Local ↔ strStartsWith s "db://" = false) ∧
    (s.data.take 5 = t.data.take 5 → classify s = classify t) ∧
    (∀ c, connect s api_key region ho rci pool kwargs env = .ok c →
      c.locationClass = classify s) := by
  refine ⟨?_, ?_, ?_, fun c hc =>
    (connect_ok_cases s api_key region ho rci pool kwargs env c hc).2⟩
  · cases h : strStartsWith s "db://" <;> simp [classify, h]
  · cases h : strStartsWith s "db://" <;> simp [classify, h]
  · intro h
    have h5 : ("db://".data).length = 5 := rfl
    unfold classify strStartsWith
    rw [listStartsWith_eq_of_take_eq "db://".data s.data t.data (by rw [h5]; exact h)]

/-- Witness for C6 at the locations `"db://mydb"` and `"db://other"`
(equal 5-character prefixes) with a remote-classified successful call. -/
theorem connect_classification_prefix_only_witness :
    (classify "db://mydb" = .Remote ↔ strStartsWith "db://mydb" "db://" = true) ∧
    classify "db://mydb" = classify "db://other" ∧
    (DBConnection.RemoteDBConnection "db://mydb" "k" "us-east-1" none none
        []).locationClass = classify "db://mydb" :=
  ⟨(connect_classification_prefix_only "db://mydb" "db://other" (some "k") "us-east-1"
      none none none [] (fun _ => none)).1,
   (connect_classification_prefix_only "db://mydb" "db://other" (some "k") "us-east-1"
      none none none [] (fun _ => none)).2.2.1 (by decide),
   (connect_classification_prefix_only "db://mydb" "db://other" (some "k") "us-east-1"
      none none none [] (fun _ => none)).2.2.2
     (.RemoteDBConnection "db://mydb" "k" "us-east-1" none none []) (by decide)⟩

/-- C7: a Local-classified `connect` silently ignores the remote-only
parameters (credential, region, host override, worker-pool spec) and the
environment: the result equals the call with all of them absent, depending
only on the location and the read-consistency interval, and with no extra
keyword arguments it succeeds with a local handle. -/
theorem connect_local_ignores_remote_params (uri : String)
    (h : strStartsWith uri "db://" = false) (api_key : Option String)
    (region : String) (ho : Option String) (rci : Option Timedelta)
    (pool : Option RequestThreadPool) (kwargs : Kwargs) (env : Env) :
    connect uri api_key region ho rci pool kwargs env
      = connect uri none defaultRegion none rci none kwargs (fun _ => none) ∧
    (kwargs = [] →
      connect uri api_key region ho rci pool kwargs env
        = .ok (.LanceDBConnection uri rci)) := by
  refine ⟨by simp [connect, h], fun hk => by simp [connect, h, hk]⟩

/-- Witness for C7 at `"/data/local"` with every remote-only parameter
supplied. -/
theorem connect_local_ignores_remote_params_witness :
    connect "/data/local" (some "cred") "eu-west-1" (some "https://h") none
        (some (.inr ⟨2⟩)) [] (fun _ => some "envkey")
      = connect "/data/local" none defaultRegion none none none [] (fun _ => none) ∧
    connect "/data/local" (some "cred") "eu-west-1" (some "https://h") none
        (some (.inr ⟨2⟩)) [] (fun _ => some "envkey")
      = .ok (.LanceDBConnection "/data/local" none) :=
  ⟨(connect_local_ignores_remote_params "/data/local" (by decide) (some "cred")
      "eu-west-1" (some "https://h") none (some (.inr ⟨2⟩)) []
      (fun _ => some "envkey")).1,
   (connect_local_ignores_remote_params "/data/local" (by decide) (some "cred")
      "eu-west-1" (some "https://h") none (some (.inr ⟨2⟩)) []
      (fun _ => some "envkey")).2 rfl⟩

/-- C8: `connect_async` is exactly one unconditional invocation of the
native asynchronous connector of the engine — no classification, no validation —
with the storage-backend options mapping passed to it verbatim, and the
(unused) worker-pool parameter inert. -/
theorem connect_async_verbatim (uri : String) (api_key : Option String)
    (region : String) (ho : Option String) (rci : Option Timedelta)
    (p1 p2 : Option RequestThreadPool) (so : Option (List (String × String)))
    (env : Env) (home cwd : String) :
    connect_async uri api_key region ho rci p1 so env home cwd
      = ⟨⟨sanitize_uri home cwd uri, api_key, region, ho,
          readConsistencyIntervalSecs rci, so⟩⟩ ∧
    (connect_async uri api_key region ho rci p1 so env home cwd).inner.storage_options
      = so ∧
    connect_async uri api_key region ho rci p1 so env home cwd
      = connect_async uri api_key region ho rci p2 so env home cwd :=
  ⟨rfl, rfl, rfl⟩

/-- C9: `connect` on `"db://mydb"` with explicit credential `"ldb_x"` and
the default region succeeds with a remote handle configured with region
`"us-east-1"`, for every environment. -/
theorem connect_cloud_default_region (env : Env) :
    connect "db://mydb" (some "ldb_x") defaultRegion none none none [] env
      = .ok (.RemoteDBConnection "db://mydb" "ldb_x" "us-east-1" none none []) ∧
    defaultRegion = "us-east-1" :=
  ⟨rfl, rfl⟩

/-- C10: `connect_async` never consults the environment — two runs differing
only in the environment produce identical native-connector calls — and an
absent explicit credential is forwarded as absent. -/
theorem connect_async_env_independent (uri : String) (api_key : Option String)
    (region : String) (ho : Option String) (rci : Option Timedelta)
    (pool : Option RequestThreadPool) (so : Option (List (String × String)))
    (env1 env2 : Env) (home cwd : String) :
    connect_async uri api_key region ho rci pool so env1 home cwd
      = connect_async uri api_key region ho rci pool so env2 home cwd ∧
    (connect_async uri none region ho rci pool so env1 home cwd).inner.api_key
      = none :=
  ⟨rfl, rfl⟩

end LanceDB
